import Mathlib

/-!
Verification of the snarkVM ledger REST service core.

This file shallowly embeds the Rust sources
`src/rest/src/server.rs` and
`src/console/program/src/data_types/vector_type/bytes.rs`
as executable Lean definitions, and proves the specified properties
about them.  Parts of the ledger aggregate that live outside the two
given source files (the memory-pool admission logic, the record
discovery engine and the state path builder) are modelled from the
specification, and each such definition says so in its doc comment.
-/

namespace SnarkVM

/-! ## Binary encode/decode layer (from `vector_type/bytes.rs`)

Byte streams are lists of naturals (each intended `< 256`); a reader
consumes a prefix of the stream and returns the decoded value together
with the remaining bytes, or `none` on malformed input.
-/

/-- Modelled from the spec: the element type carried by a `VectorType`.
The concrete enumeration of element types is not among the given source
files; the spec describes the codec as "a generic tag-length
encode/decode contract", so the element type is modelled as a tagged
enumeration with a one-byte tag. -/
inductive ElementType
  | boolean
  | u8
  | u16
  | u32
  | u64
  | i8
  | i16
  | i32
  | i64
  | field
  | group
  | scalar
  | address
  deriving DecidableEq, Repr

/-- The tag byte written for each element type. -/
def ElementType.toTag : ElementType → Nat
  | .boolean => 0
  | .u8 => 1
  | .u16 => 2
  | .u32 => 3
  | .u64 => 4
  | .i8 => 5
  | .i16 => 6
  | .i32 => 7
  | .i64 => 8
  | .field => 9
  | .group => 10
  | .scalar => 11
  | .address => 12

/-- Decode a tag byte back to an element type; unknown tags are malformed. -/
def ElementType.ofTag : Nat → Option ElementType
  | 0 => some .boolean
  | 1 => some .u8
  | 2 => some .u16
  | 3 => some .u32
  | 4 => some .u64
  | 5 => some .i8
  | 6 => some .i16
  | 7 => some .i32
  | 8 => some .i64
  | 9 => some .field
  | 10 => some .group
  | 11 => some .scalar
  | 12 => some .address
  | _ => none

/-- `ElementType::write_le`: emit the tag byte. -/
def ElementType.write_le (t : ElementType) : List Nat := [t.toTag]

/-- `ElementType::read_le`: consume one tag byte and decode it. -/
def ElementType.read_le : List Nat → Option (ElementType × List Nat)
  | [] => none
  | b :: rest =>
    match ElementType.ofTag b with
    | some t => some (t, rest)
    | none => none

/-- The vector type of `vector_type/bytes.rs`: a wrapper holding the
element type of the vector. -/
structure VectorType where
  element_type : ElementType
  deriving DecidableEq, Repr

/-- `VectorType::new`, the constructor used by `read_le`. -/
def VectorType.new (element_type : ElementType) : VectorType :=
  { element_type := element_type }

/-- `VectorType::read_le` (FromBytes impl): read the element type, then
return the vector type built from it. -/
def VectorType.read_le (bytes : List Nat) : Option (VectorType × List Nat) :=
  match ElementType.read_le bytes with
  | some (element_type, rest) => some (VectorType.new element_type, rest)
  | none => none

/-- `VectorType::write_le` (ToBytes impl): write the element type. -/
def VectorType.write_le (v : VectorType) : List Nat :=
  v.element_type.write_le

/-! ## Ledger data model

The ledger aggregate itself (`snarkvm_compiler::Ledger`) is outside the
given source files; its operations are modelled from the specification
(§3, §4.2–§4.4).  Identifiers, hashes, commitments, serial numbers and
key material are modelled as naturals.
-/

/-- A transaction: a deterministic ID, input serial numbers, and output
records given as (commitment, ciphertext payload) pairs. -/
structure Transaction where
  id : Nat
  inputs : List Nat
  outputs : List (Nat × Nat)
  deriving DecidableEq, Repr

/-- A block: height, hash, previous hash, transactions, state root. -/
structure Block where
  height : Nat
  hash : Nat
  previous_hash : Nat
  transactions : List Transaction
  state_root : Nat
  deriving DecidableEq, Repr

/-- The ledger aggregate root: derived latest indices, the chain store
(blocks), the stored record ciphertexts as
(commitment, owner view key, payload) triples, the spent-serial-number
index, and the memory pool. -/
structure LedgerState where
  latest_height : Nat
  latest_hash : Nat
  blocks : List Block
  ciphertexts : List (Nat × Nat × Nat)
  spentSerials : List Nat
  pool : List Transaction
  deriving DecidableEq, Repr

/-- The error taxonomy of the spec (§7) relevant to the ledger queries
and pool admission. -/
inductive LedgerError
  | NotFound
  | Duplicate
  | DoubleSpend
  deriving DecidableEq, Repr

/-- All transactions confirmed in blocks, in chain order. -/
def LedgerState.confirmed (l : LedgerState) : List Transaction :=
  (l.blocks.map (·.transactions)).flatten

/-- Modelled from the spec (§4.2): `get_block(height)` fails with
`NotFound` if `height` exceeds `latest_height` or storage lacks the
entry. -/
def LedgerState.get_block (l : LedgerState) (height : Nat) : Except LedgerError Block :=
  if l.latest_height < height then .error .NotFound
  else
    match l.blocks.find? (fun b => b.height == height) with
    | some b => .ok b
    | none => .error .NotFound

/-- Modelled from the spec (§4.2): `latest_block()` is the block at
`latest_height`; `NotFound` guards against inconsistent storage. -/
def LedgerState.latest_block (l : LedgerState) : Except LedgerError Block :=
  l.get_block l.latest_height

/-- Modelled from the spec (§4.2): transactions of the block at the
given height, preserving their order within the block. -/
def LedgerState.get_transactions (l : LedgerState) (height : Nat) :
    Except LedgerError (List Transaction) :=
  (l.get_block height).map (·.transactions)

/-- Modelled from the spec (§4.2): `get_transaction(id)` fails with
`NotFound` if no confirmed transaction has that ID (pool-only
transactions are not visible through this call). -/
def LedgerState.get_transaction (l : LedgerState) (id : Nat) :
    Except LedgerError Transaction :=
  match l.confirmed.find? (fun t => t.id == id) with
  | some t => .ok t
  | none => .error .NotFound

/-! ## Memory pool admission (modelled from the spec, §4.2) -/

/-- IDs of pooled transactions. -/
def LedgerState.pooledIds (l : LedgerState) : List Nat := l.pool.map (·.id)

/-- IDs of confirmed transactions. -/
def LedgerState.confirmedIds (l : LedgerState) : List Nat := l.confirmed.map (·.id)

/-- Input serial numbers of pooled transactions. -/
def LedgerState.pooledSerials (l : LedgerState) : List Nat :=
  (l.pool.map (·.inputs)).flatten

/-- Input serial numbers of confirmed transactions. -/
def LedgerState.confirmedSerials (l : LedgerState) : List Nat :=
  (l.confirmed.map (·.inputs)).flatten

/-- Modelled from the spec (§4.2 admission state machine):
reject `Duplicate` if the ID is already pooled or confirmed, reject
`DoubleSpend` if any input serial number is already pooled or
confirmed, otherwise insert keyed by ID. -/
def LedgerState.add_to_memory_pool (l : LedgerState) (t : Transaction) :
    Except LedgerError LedgerState :=
  if l.pooledIds.contains t.id || l.confirmedIds.contains t.id then
    .error .Duplicate
  else if t.inputs.any (fun s => l.pooledSerials.contains s || l.confirmedSerials.contains s) then
    .error .DoubleSpend
  else
    .ok { l with pool := l.pool ++ [t] }

/-! ## Record discovery engine (modelled from the spec, §4.4) -/

/-- The records filter of `snarkvm_compiler::RecordsFilter`. -/
inductive RecordsFilter
  | All
  | Spent
  | Unspent
  deriving DecidableEq, Repr

/-- Modelled from the spec (§4.4): a decryption attempt against one
stored ciphertext triple (commitment, owner view key, payload);
succeeds exactly when the view key matches the owner, yielding the
(commitment, record payload) pair. -/
def decryptRecord (view_key : Nat) (c : Nat × Nat × Nat) : Option (Nat × Nat) :=
  if c.2.1 == view_key then some (c.1, c.2.2) else none

/-- Modelled from the spec (§4.4): the serial number, a deterministic
function of the record and the owner's key material. -/
def serialNumber (view_key : Nat) (r : Nat × Nat) : Nat :=
  Nat.pair view_key (Nat.pair r.1 r.2)

/-- A record is spent when its serial number is in the spent index. -/
def LedgerState.isSpent (l : LedgerState) (view_key : Nat) (r : Nat × Nat) : Bool :=
  l.spentSerials.contains (serialNumber view_key r)

/-- Modelled from the spec (§4.4): scan every stored ciphertext, attempt
decryption with the view key, classify by spent-index membership, and
apply the filter; output in scan order. -/
def LedgerState.find_records (l : LedgerState) (view_key : Nat) (f : RecordsFilter) :
    List (Nat × Nat) :=
  l.ciphertexts.filterMap (fun c =>
    match decryptRecord view_key c with
    | none => none
    | some r =>
      match f with
      | .All => some r
      | .Spent => if l.isSpent view_key r then some r else none
      | .Unspent => if l.isSpent view_key r then none else some r)

/-! ## State path builder (modelled from the spec, §4.3) -/

/-- Modelled from the spec: a two-to-one hash combiner for Merkle tree
levels, injective on pairs. -/
def hashPair (a b : Nat) : Nat := Nat.pair a b

/-- One Merkle level up: hash adjacent pairs, duplicating a trailing
odd element. -/
def pairUp : List Nat → List Nat
  | [] => []
  | [a] => [hashPair a a]
  | a :: b :: rest => hashPair a b :: pairUp rest

/-- Fuelled computation of a Merkle root from a level of leaves. -/
def merkleRootAux (fuel : Nat) (level : List Nat) : Nat :=
  match fuel with
  | 0 => level.headD 0
  | fuel + 1 => if level.length ≤ 1 then level.headD 0 else merkleRootAux fuel (pairUp level)

/-- The Merkle root of a list of leaves. -/
def merkleRoot (leaves : List Nat) : Nat := merkleRootAux leaves.length leaves

/-- Fuelled collection of the sibling hashes from leaf position `i` up
to the root. -/
def merklePathAux (fuel : Nat) (level : List Nat) (i : Nat) : List Nat :=
  match fuel with
  | 0 => []
  | fuel + 1 =>
    if level.length ≤ 1 then []
    else
      let sib :=
        if i % 2 == 0 then level.getD (i + 1) (level.getD i 0) else level.getD (i - 1) 0
      sib :: merklePathAux fuel (pairUp level) (i / 2)

/-- The sibling hashes from leaf position `i` of `leaves` to the root. -/
def merklePath (leaves : List Nat) (i : Nat) : List Nat :=
  merklePathAux leaves.length leaves i

/-- The output commitments confirmed in a block, in transaction order. -/
def Block.commitments (b : Block) : List Nat :=
  ((b.transactions.map (·.outputs)).flatten).map (·.1)

/-- Locate the block containing a commitment: returns the block's index
in the chain, the block, and the commitment's leaf index in the block's
local commitment tree. -/
def locateCommitment (c : Nat) : List Block → Nat → Option (Nat × Block × Nat)
  | [], _ => none
  | b :: rest, bi =>
    match b.commitments.findIdx? (· == c) with
    | some li => some (bi, b, li)
    | none => locateCommitment c rest (bi + 1)

/-- The local Merkle roots of every block's commitment tree, the leaves
of the global tree. -/
def LedgerState.localRoots (l : LedgerState) : List Nat :=
  l.blocks.map (fun b => merkleRoot b.commitments)

/-- Modelled from the spec (§4.3): locate the block containing the
commitment and its leaf position, collect the sibling hashes to the
block's local root, then the sibling hashes from the block's position
in the global tree to the global root; the path is the concatenation
of both sequences plus the root.  Fails with `NotFound` when the
commitment is in no confirmed block. -/
def LedgerState.to_state_path (l : LedgerState) (c : Nat) :
    Except LedgerError (List Nat) :=
  match locateCommitment c l.blocks 0 with
  | none => .error .NotFound
  | some (bi, b, li) =>
    let localSibs := merklePath b.commitments li
    let globalSibs := merklePath l.localRoots bi
    .ok (localSibs ++ globalSibs ++ [merkleRoot l.localRoots])

/-- Little-endian base-256 digits of a natural (fuelled). -/
def natDigitsAux : Nat → Nat → List Nat
  | 0, _ => []
  | fuel + 1, n => if n == 0 then [] else n % 256 :: natDigitsAux fuel (n / 256)

/-- Length-prefixed little-endian byte encoding of a natural. -/
def natBytes (n : Nat) : List Nat :=
  let ds := natDigitsAux n n
  ds.length :: ds

/-- Byte serialization of a state path: length prefix followed by the
encoding of each hash. -/
def statePathBytes (p : List Nat) : List Nat :=
  p.length :: (p.map natBytes).flatten

/-! ## The REST server (from `src/rest/src/server.rs`) -/

/-- The ledger request type sent over the channel
(`LedgerRequest::TransactionBroadcast`). -/
inductive LedgerRequest
  | TransactionBroadcast (transaction : Transaction)
  deriving DecidableEq, Repr

/-- The bounded mpsc channel created by `Server::start`: its capacity,
pending queue in FIFO order, and whether the receiving consumer has
terminated. -/
structure Channel where
  capacity : Nat
  queue : List LedgerRequest
  closed : Bool
  deriving DecidableEq, Repr

/-- The send error of the channel (`tokio::sync::mpsc::error::SendError`). -/
inductive SendError
  | Closed
  deriving DecidableEq, Repr

/-- Modelled from the spec (§4.1, §5): `send` on the bounded channel
fails exactly when the consumer has terminated (the channel is closed);
when the channel is open, a full queue makes the sender wait for space
(backpressure), after which the request is appended in FIFO order — so
an open channel's send always completes with success and never
rejects. -/
def Channel.send (ch : Channel) (r : LedgerRequest) : Except SendError Unit × Channel :=
  if ch.closed then (.error .Closed, ch)
  else (.ok (), { ch with queue := ch.queue ++ [r] })

/-- The server error of the rest crate (`ServerError::Request`). -/
inductive ServerError
  | Request (msg : String)
  deriving DecidableEq, Repr

/-- A warp rejection: either the typed rejection produced by
`or_reject` on a failed ledger query, or a custom server error. -/
inductive Rejection
  | notFound
  | custom (e : ServerError)
  deriving DecidableEq, Repr

/-- Modelled from the spec (§7): `or_reject` turns a typed ledger error
into a typed warp rejection. -/
def or_reject : LedgerError → Rejection
  | .NotFound => .notFound
  | .Duplicate => .notFound
  | .DoubleSpend => .notFound

/-- Modelled from the spec (§6, §7): the HTTP status the boundary layer
assigns to a rejection (`NotFound` → 404, other request errors → 400). -/
def statusOf : Rejection → Nat
  | .notFound => 404
  | .custom _ => 400

/-- A reply produced by a handler (`warp::reply`): the literal string
acknowledgment of the broadcast route, or a JSON rendering of the
query result. -/
inductive Reply
  | text (s : String)
  | jsonNat (n : Nat)
  | jsonBlock (b : Block)
  | jsonTransactions (ts : List Transaction)
  | jsonTransaction (t : Transaction)
  | jsonPath (p : List Nat)
  | jsonRecords (rs : List (Nat × Nat))
  deriving DecidableEq, Repr

/-! ### Read handlers (server.rs lines 198–270)

Each Rust handler acquires the shared read lock for the duration of a
single query (`ledger.read()`), runs the query, and serializes the
result; `.or_reject()?` turns a query error into a typed rejection.
In the embedding a handler is a total function of the ledger snapshot
it reads under the lock.
-/

namespace Server

/-- `Server::latest_height`: `reply::json(&ledger.read().latest_height())`,
no failure case. -/
def latest_height (ledger : LedgerState) : Except Rejection Reply :=
  .ok (.jsonNat ledger.latest_height)

/-- `Server::latest_hash`: `reply::json(&ledger.read().latest_hash())`,
no failure case. -/
def latest_hash (ledger : LedgerState) : Except Rejection Reply :=
  .ok (.jsonNat ledger.latest_hash)

/-- `Server::latest_block`: the latest block as JSON, or a rejection. -/
def latest_block (ledger : LedgerState) : Except Rejection Reply :=
  (ledger.latest_block.mapError or_reject).map .jsonBlock

/-- `Server::get_block`: the block at the given height as JSON, or a
rejection. -/
def get_block (height : Nat) (ledger : LedgerState) : Except Rejection Reply :=
  ((ledger.get_block height).mapError or_reject).map .jsonBlock

/-- `Server::state_path`: the state path for the commitment as JSON, or
a rejection. -/
def state_path (commitment : Nat) (ledger : LedgerState) : Except Rejection Reply :=
  ((ledger.to_state_path commitment).mapError or_reject).map .jsonPath

/-- `Server::records_all`: all records found for the view key. -/
def records_all (view_key : Nat) (ledger : LedgerState) : Except Rejection Reply :=
  .ok (.jsonRecords (ledger.find_records view_key .All))

/-- `Server::records_spent`: the spent records found for the view key. -/
def records_spent (view_key : Nat) (ledger : LedgerState) : Except Rejection Reply :=
  .ok (.jsonRecords (ledger.find_records view_key .Spent))

/-- `Server::records_unspent`: the unspent records found for the view
key. -/
def records_unspent (view_key : Nat) (ledger : LedgerState) : Except Rejection Reply :=
  .ok (.jsonRecords (ledger.find_records view_key .Unspent))

/-- `Server::get_transactions`: the transactions at the given height as
JSON, or a rejection. -/
def get_transactions (height : Nat) (ledger : LedgerState) : Except Rejection Reply :=
  ((ledger.get_transactions height).mapError or_reject).map .jsonTransactions

/-- `Server::get_transaction`: the confirmed transaction with the given
ID as JSON, or a rejection. -/
def get_transaction (transaction_id : Nat) (ledger : LedgerState) :
    Except Rejection Reply :=
  ((ledger.get_transaction transaction_id).mapError or_reject).map .jsonTransaction

/-- The display message of a send error (`format!("{error}")`). -/
def sendErrorMessage : SendError → String
  | .Closed => "channel closed"

/-- `Server::transaction_broadcast` (server.rs lines 273–282): send the
request on the ledger channel; on `Ok(())` reply with the literal
string "OK", on error reject with `ServerError::Request`.  The handler
receives only the sender — not the ledger. -/
def transaction_broadcast (transaction : Transaction) (ledger_sender : Channel) :
    Except Rejection Reply × Channel :=
  match ledger_sender.send (.TransactionBroadcast transaction) with
  | (.ok (), ch) => (.ok (.text "OK"), ch)
  | (.error e, ch) => (.error (.custom (.Request (sendErrorMessage e))), ch)

end Server

/-! ### Routes (server.rs lines 78–172) -/

/-- An HTTP method as used by the routes. -/
inductive Method
  | GET
  | POST
  deriving DecidableEq, Repr

/-- One segment of a route path: a literal, or a typed path parameter. -/
inductive Segment
  | lit (s : String)
  | paramU32
  | paramTxId
  deriving DecidableEq, Repr

/-- A registered route: method, path, and the body content-length
limit installed by `warp::body::content_length_limit`, when any. -/
structure Route where
  method : Method
  path : List Segment
  bodyLimit : Option Nat
  deriving DecidableEq, Repr

/-- warp's `content_length_limit` filter: a body of the given length
passes exactly when it does not exceed the route's limit. -/
def Route.acceptsBody (r : Route) (len : Nat) : Bool :=
  match r.bodyLimit with
  | none => true
  | some lim => len ≤ lim

/-- GET /testnet3/latest/height. -/
def latest_height_route : Route :=
  ⟨.GET, [.lit "testnet3", .lit "latest", .lit "height"], none⟩

/-- GET /testnet3/latest/hash. -/
def latest_hash_route : Route :=
  ⟨.GET, [.lit "testnet3", .lit "latest", .lit "hash"], none⟩

/-- GET /testnet3/latest/block. -/
def latest_block_route : Route :=
  ⟨.GET, [.lit "testnet3", .lit "latest", .lit "block"], none⟩

/-- GET /testnet3/block/{height}. -/
def get_block_route : Route :=
  ⟨.GET, [.lit "testnet3", .lit "block", .paramU32], none⟩

/-- GET /testnet3/statePath, JSON body limited to 128 bytes. -/
def state_path_route : Route :=
  ⟨.GET, [.lit "testnet3", .lit "statePath"], some 128⟩

/-- GET /testnet3/records/all, JSON body limited to 128 bytes. -/
def records_all_route : Route :=
  ⟨.GET, [.lit "testnet3", .lit "records", .lit "all"], some 128⟩

/-- GET /testnet3/records/spent, JSON body limited to 128 bytes. -/
def records_spent_route : Route :=
  ⟨.GET, [.lit "testnet3", .lit "records", .lit "spent"], some 128⟩

/-- GET /testnet3/records/unspent, JSON body limited to 128 bytes. -/
def records_unspent_route : Route :=
  ⟨.GET, [.lit "testnet3", .lit "records", .lit "unspent"], some 128⟩

/-- GET /testnet3/transactions/{height}. -/
def get_transactions_route : Route :=
  ⟨.GET, [.lit "testnet3", .lit "transactions", .paramU32], none⟩

/-- GET /testnet3/transaction/{id}. -/
def get_transaction_route : Route :=
  ⟨.GET, [.lit "testnet3", .lit "transaction", .paramTxId], none⟩

/-- POST /testnet3/transaction/broadcast, JSON body limited to
10 * 1024 * 1024 bytes. -/
def transaction_broadcast_route : Route :=
  ⟨.POST, [.lit "testnet3", .lit "transaction", .lit "broadcast"], some (10 * 1024 * 1024)⟩

/-! ### Server start and the consumer task (server.rs lines 44–75, 175–195) -/

/-- The buffer size passed to `mpsc::channel` in `Server::start`
(server.rs line 49). -/
def ledgerChannelCapacity : Nat := 64

/-- The server state produced by `Server::start`: the shared ledger
handle and the sender side of the request channel. -/
structure ServerState where
  ledger : LedgerState
  ledger_sender : Channel
  deriving DecidableEq, Repr

/-- `Server::start`: initialize the request channel with a buffer of
`ledgerChannelCapacity` pending requests (open, initially empty) and
keep the shared ledger handle. -/
def Server.start (ledger : LedgerState) : ServerState :=
  { ledger := ledger,
    ledger_sender := { capacity := ledgerChannelCapacity, queue := [], closed := false } }

/-- A log line emitted by the consumer task: the `trace!` on success or
the `warn!` on failure, each carrying the transaction ID. -/
inductive LogEntry
  | added (transaction_id : Nat)
  | failed (transaction_id : Nat)
  deriving DecidableEq, Repr

/-- One iteration of the consumer loop in `Server::start_handler`:
apply the dequeued request to the ledger under the exclusive write
lock (`ledger.write().add_to_memory_pool(...)`); log success or
failure; a failure leaves the ledger unchanged and is not returned to
anyone. -/
def handleRequest (ledger : LedgerState) : LedgerRequest → LedgerState × LogEntry
  | .TransactionBroadcast transaction =>
    let transaction_id := transaction.id
    match ledger.add_to_memory_pool transaction with
    | .ok ledger2 => (ledger2, .added transaction_id)
    | .error _ => (ledger, .failed transaction_id)

/-- `Server::start_handler`: the consumer task drains the channel in
FIFO order, handling each request in turn until the channel is
exhausted; the embedding runs it over the list of dequeued requests,
returning the final ledger and the log. -/
def Server.start_handler (ledger : LedgerState) :
    List LedgerRequest → LedgerState × List LogEntry
  | [] => (ledger, [])
  | r :: rest =>
    let step := handleRequest ledger r
    let rec2 := Server.start_handler step.1 rest
    (rec2.1, step.2 :: rec2.2)

/-- The broadcast handler in the context of the whole server state: the
Rust handler's arguments are the transaction and the channel sender
only, so it acts on the channel component alone. -/
def Server.transaction_broadcast_system (transaction : Transaction) (s : ServerState) :
    Except Rejection Reply × ServerState :=
  let r := Server.transaction_broadcast transaction s.ledger_sender
  (r.1, { s with ledger_sender := r.2 })

/-! ### Auxiliary definitions for the statements -/

/-- The path listed for the latest-height operation in the spec's
interface table (§6): `GET /latest/height`, written as segments. -/
def specTableLatestHeightPath : List Segment :=
  [.lit "latest", .lit "height"]

/-- A read handler surfaces its query result when it succeeds exactly
on query success and turns a query error into a typed rejection whose
boundary status is in the 4xx range. -/
def surfaces {α : Type} (q : Except LedgerError α) (r : Except Rejection Reply) : Prop :=
  match q, r with
  | .ok _, .ok _ => True
  | .error _, .error rej => 400 ≤ statusOf rej ∧ statusOf rej < 500
  | _, _ => False

/-- A small concrete transaction used to instantiate the theorems. -/
def transactionW : Transaction := ⟨7, [3], [(1, 10), (2, 20)]⟩

/-- A small concrete block used to instantiate the theorems. -/
def blockW : Block := ⟨0, 100, 0, [transactionW], 0⟩

/-- A small concrete ledger used to instantiate the theorems: one
confirmed block, three stored ciphertexts (two owned by view key 5,
one of them spent), and `transactionW` already pooled. -/
def ledgerW : LedgerState :=
  { latest_height := 0
    latest_hash := 100
    blocks := [blockW]
    ciphertexts := [(1, 5, 10), (2, 5, 20), (4, 6, 40)]
    spentSerials := [serialNumber 5 (1, 10)]
    pool := [transactionW] }

/-! ## Theorems -/

theorem ElementType.ofTag_toTag (t : ElementType) :
    ElementType.ofTag t.toTag = some t := by
  cases t <;> rfl

theorem ElementType.read_write (t : ElementType) (rest : List Nat) :
    ElementType.read_le (t.write_le ++ rest) = some (t, rest) := by
  simp [ElementType.write_le, ElementType.read_le, ElementType.ofTag_toTag]

/-- C5: the binary encode/decode layer is lossless and round-trip-exact
for `VectorType`: reading back the bytes produced by `write_le`
(followed by any remaining stream) yields the original value and the
untouched remainder, so `read_le ∘ write_le` is the identity. -/
theorem C5_vector_type_roundtrip (v : VectorType) (rest : List Nat) :
    VectorType.read_le (v.write_le ++ rest) = some (v, rest) := by
  cases v with
  | mk t =>
    simp [VectorType.write_le, VectorType.read_le, ElementType.read_write, VectorType.new]

/-- C7: the boundary enforces body size limits: the statePath route and
the three records routes reject exactly the bodies larger than 128
bytes, and the transaction broadcast route rejects exactly the bodies
larger than 10 * 1024 * 1024 bytes. -/
theorem C7_body_size_limits (len : Nat) :
    (state_path_route.acceptsBody len = false ↔ 128 < len) ∧
    (records_all_route.acceptsBody len = false ↔ 128 < len) ∧
    (records_spent_route.acceptsBody len = false ↔ 128 < len) ∧
    (records_unspent_route.acceptsBody len = false ↔ 128 < len) ∧
    (transaction_broadcast_route.acceptsBody len = false ↔ 10 * 1024 * 1024 < len) := by
  simp [Route.acceptsBody, state_path_route, records_all_route, records_spent_route,
    records_unspent_route, transaction_broadcast_route, Nat.not_le]

/-- C8: `Server::start` creates the ledger request channel as an
ordered, bounded queue with a buffer of exactly 64 pending requests,
initially empty and open. -/
theorem C8_channel_capacity (ledger : LedgerState) :
    (Server.start ledger).ledger_sender.capacity = 64 ∧
    (Server.start ledger).ledger_sender.queue = [] ∧
    (Server.start ledger).ledger_sender.closed = false ∧
    ledgerChannelCapacity = 64 :=
  ⟨rfl, rfl, rfl, rfl⟩

/-- C9 counterexample: the route registered for the latest-height
operation is `GET /testnet3/latest/height`, which does not match the
path `/latest/height` given in the spec's interface table exactly —
the registered path carries the leading network segment `testnet3`. -/
theorem C9_counterexample :
    latest_height_route.path ≠ specTableLatestHeightPath := by
  decide

/-- C9 (amended): the HTTP surface serves GET `/testnet3/latest/height`
— the spec table's path prefixed by the network segment `testnet3` —
with no input body, and its handler returns the latest block height as
JSON with no failure case. -/
theorem C9_latest_height_route (ledger : LedgerState) :
    latest_height_route.method = .GET ∧
    latest_height_route.path = [.lit "testnet3", .lit "latest", .lit "height"] ∧
    latest_height_route.bodyLimit = none ∧
    Server.latest_height ledger = .ok (.jsonNat ledger.latest_height) :=
  ⟨rfl, rfl, rfl, rfl⟩

/-- C10: the broadcast handler leaves the ledger component of the
server state entirely unchanged — its only effect is the channel send —
so a successful acknowledgment implies nothing about the ledger or
memory pool contents. -/
theorem C10_broadcast_frame (transaction : Transaction) (s : ServerState) :
    ((Server.transaction_broadcast_system transaction s).2.ledger = s.ledger) ∧
    ((Server.transaction_broadcast_system transaction s).2.ledger.pool = s.ledger.pool) ∧
    ((Server.transaction_broadcast_system transaction s).2.ledger_sender
        = (Server.transaction_broadcast transaction s.ledger_sender).2) :=
  ⟨rfl, rfl, rfl⟩

/-- C1: the broadcast handler returns the literal string acknowledgment
"OK" exactly when the channel send succeeds (the channel is open, the
request then being appended to the queue), returns the
`ServerError::Request` rejection exactly when the channel is closed,
and on an open channel a full queue still yields the acknowledgment —
backpressure, never a rejection. -/
theorem C1_broadcast_ack (transaction : Transaction) (ch : Channel) :
    (ch.closed = false →
      Server.transaction_broadcast transaction ch
        = (.ok (.text "OK"),
           { ch with queue := ch.queue ++ [.TransactionBroadcast transaction] })) ∧
    (ch.closed = true →
      Server.transaction_broadcast transaction ch
        = (.error (.custom (.Request (Server.sendErrorMessage .Closed))), ch)) ∧
    (ch.closed = false → ch.capacity ≤ ch.queue.length →
      (Server.transaction_broadcast transaction ch).1 = .ok (.text "OK")) := by
  refine ⟨fun h => ?_, fun h => ?_, fun h _ => ?_⟩ <;>
    simp [Server.transaction_broadcast, Channel.send, Server.sendErrorMessage, h]

theorem C1_broadcast_ack_witness :
    (Server.transaction_broadcast transactionW ⟨0, [], false⟩).1 = .ok (.text "OK") ∧
    Server.transaction_broadcast transactionW ⟨64, [], true⟩
      = (.error (.custom (.Request (Server.sendErrorMessage .Closed))), ⟨64, [], true⟩) :=
  ⟨(C1_broadcast_ack transactionW ⟨0, [], false⟩).2.2 rfl (by decide),
   (C1_broadcast_ack transactionW ⟨64, [], true⟩).2.1 rfl⟩

/-- Every read handler of the mapError-map shape surfaces its query
result: success maps to success, a typed error maps to a rejection
whose boundary status lies in the 4xx range. -/
theorem surfaces_mapError {α : Type} (q : Except LedgerError α) (f : α → Reply) :
    surfaces q ((q.mapError or_reject).map f) := by
  cases q with
  | ok a => simp [surfaces, Except.mapError, Except.map]
  | error e =>
    cases e <;> simp [surfaces, Except.mapError, Except.map, or_reject, statusOf]

/-- C6: every read-path error from a ledger query (latest_block,
get_block, get_transactions, get_transaction, state_path,
find_records) is surfaced to the HTTP caller as a typed rejection with
a 4xx boundary status; each read handler is a total function of the
snapshot, so no failed query panics the process. -/
theorem C6_read_errors_4xx (l : LedgerState) (height tid c vk : Nat) :
    surfaces l.latest_block (Server.latest_block l) ∧
    surfaces (l.get_block height) (Server.get_block height l) ∧
    surfaces (l.get_transactions height) (Server.get_transactions height l) ∧
    surfaces (l.get_transaction tid) (Server.get_transaction tid l) ∧
    surfaces (l.to_state_path c) (Server.state_path c l) ∧
    surfaces (Except.ok (l.find_records vk .All) : Except LedgerError _)
      (Server.records_all vk l) :=
  ⟨surfaces_mapError _ _, surfaces_mapError _ _, surfaces_mapError _ _,
   surfaces_mapError _ _, surfaces_mapError _ _, by simp [surfaces, Server.records_all]⟩

/-- C2: applying a request whose admission fails leaves the ledger
unchanged, logs the failure, and the consumer continues with the
remaining requests; the consumer handles every dequeued request (one
log line per request) and no failure is ever propagated back to the
submitter. -/
theorem C2_consumer_drops_failures (ledger : LedgerState) (t : Transaction)
    (e : LedgerError) (rest : List LedgerRequest)
    (h : ledger.add_to_memory_pool t = .error e) :
    Server.start_handler ledger (.TransactionBroadcast t :: rest)
      = ((Server.start_handler ledger rest).1,
         .failed t.id :: (Server.start_handler ledger rest).2) ∧
    ∀ (l2 : LedgerState) (rs : List LedgerRequest),
      (Server.start_handler l2 rs).2.length = rs.length := by
  constructor
  · simp [Server.start_handler, handleRequest, h]
  · intro l2 rs
    induction rs generalizing l2 with
    | nil => rfl
    | cons r rs ih => simp [Server.start_handler, ih]

theorem C2_consumer_drops_failures_witness :
    ledgerW.add_to_memory_pool transactionW = .error .Duplicate ∧
    Server.start_handler ledgerW [.TransactionBroadcast transactionW]
      = (ledgerW, [.failed 7]) := by
  have h : ledgerW.add_to_memory_pool transactionW = .error .Duplicate := by rfl
  refine ⟨h, ?_⟩
  have h2 := (C2_consumer_drops_failures ledgerW transactionW .Duplicate [] h).1
  rw [h2]
  rfl

/-- Classifying the decrypted records with a positive test is filtering
the full decryption scan. -/
theorem filterMap_classify (vk : Nat) (p : Nat × Nat → Bool) (cs : List (Nat × Nat × Nat)) :
    (cs.filterMap (fun c =>
      match decryptRecord vk c with
      | none => none
      | some r => if p r then some r else none))
    = (cs.filterMap (decryptRecord vk)).filter p := by
  induction cs with
  | nil => rfl
  | cons c cs ih =>
    cases hd : decryptRecord vk c with
    | none => simp [List.filterMap_cons, hd, ih]
    | some r =>
      by_cases hp : p r
      · simp [List.filterMap_cons, hd, hp, ih]
      · simp [List.filterMap_cons, hd, hp, ih]

/-- Classifying the decrypted records with a negative test is filtering
the full decryption scan by the complement. -/
theorem filterMap_classify_neg (vk : Nat) (p : Nat × Nat → Bool) (cs : List (Nat × Nat × Nat)) :
    (cs.filterMap (fun c =>
      match decryptRecord vk c with
      | none => none
      | some r => if p r then none else some r))
    = (cs.filterMap (decryptRecord vk)).filter (fun r => !(p r)) := by
  induction cs with
  | nil => rfl
  | cons c cs ih =>
    cases hd : decryptRecord vk c with
    | none => simp [List.filterMap_cons, hd, ih]
    | some r =>
      by_cases hp : p r
      · simp [List.filterMap_cons, hd, hp, ih]
      · simp [List.filterMap_cons, hd, hp, ih]

/-- The `All` filter returns exactly the successful decryptions, in
scan order. -/
theorem find_records_all_eq (l : LedgerState) (vk : Nat) :
    l.find_records vk .All = l.ciphertexts.filterMap (decryptRecord vk) := by
  unfold LedgerState.find_records
  congr 1
  funext c
  cases decryptRecord vk c <;> rfl

/-- The `Spent` filter is the `All` scan filtered by the spent test. -/
theorem find_records_spent_eq (l : LedgerState) (vk : Nat) :
    l.find_records vk .Spent = (l.find_records vk .All).filter (l.isSpent vk) := by
  rw [find_records_all_eq, ← filterMap_classify vk (l.isSpent vk) l.ciphertexts]
  rfl

/-- The `Unspent` filter is the `All` scan filtered by the complement
of the spent test. -/
theorem find_records_unspent_eq (l : LedgerState) (vk : Nat) :
    l.find_records vk .Unspent
      = (l.find_records vk .All).filter (fun r => !(l.isSpent vk r)) := by
  rw [find_records_all_eq, ← filterMap_classify_neg vk (l.isSpent vk) l.ciphertexts]
  rfl

/-- A successful decryption keeps the ciphertext's commitment. -/
theorem decryptRecord_fst (vk : Nat) (c : Nat × Nat × Nat) (r : Nat × Nat)
    (h : decryptRecord vk c = some r) : r.1 = c.1 := by
  unfold decryptRecord at h
  by_cases hb : (c.2.1 == vk) = true
  · rw [if_pos hb] at h
    cases h
    rfl
  · rw [if_neg hb] at h
    cases h

/-- The commitments of the decryption scan form a sublist of the
stored commitments. -/
theorem find_records_fst_sublist (vk : Nat) (cs : List (Nat × Nat × Nat)) :
    ((cs.filterMap (decryptRecord vk)).map (·.1)).Sublist (cs.map (·.1)) := by
  induction cs with
  | nil => simp
  | cons c cs ih =>
    cases hd : decryptRecord vk c with
    | none =>
      simp [List.filterMap_cons, hd]
      exact ih.cons _
    | some r =>
      simp [List.filterMap_cons, hd, decryptRecord_fst vk c r hd]
      exact ih

/-- C3: for every view key and fixed chain state with distinct stored
commitments, the records returned under `All` are exactly the union of
those under `Spent` and `Unspent`, the two are disjoint, and the
returned commitments contain no duplicates. -/
theorem C3_records_partition (l : LedgerState) (vk : Nat)
    (hnodup : (l.ciphertexts.map (·.1)).Nodup) :
    (∀ r, r ∈ l.find_records vk .All ↔
       (r ∈ l.find_records vk .Spent ∨ r ∈ l.find_records vk .Unspent)) ∧
    (∀ r, ¬(r ∈ l.find_records vk .Spent ∧ r ∈ l.find_records vk .Unspent)) ∧
    ((l.find_records vk .All).map (·.1)).Nodup := by
  have hs := find_records_spent_eq l vk
  have hu := find_records_unspent_eq l vk
  refine ⟨?_, ?_, ?_⟩
  · intro r
    rw [hs, hu]
    cases hp : l.isSpent vk r <;> simp [List.mem_filter, hp]
  · rintro r ⟨h1, h2⟩
    rw [hs] at h1
    rw [hu] at h2
    rcases List.mem_filter.mp h1 with ⟨_, hp1⟩
    rcases List.mem_filter.mp h2 with ⟨_, hp2⟩
    simp [hp1] at hp2
  · rw [find_records_all_eq]
    exact (find_records_fst_sublist vk l.ciphertexts).nodup hnodup

theorem C3_records_partition_witness :
    (ledgerW.ciphertexts.map (·.1)).Nodup ∧
    ((ledgerW.find_records 5 .All).map (·.1)).Nodup :=
  ⟨by decide, (C3_records_partition ledgerW 5 (by decide)).2.2⟩

/-- C4: the state path construction is deterministic — for a fixed
chain state and commitment, repeated calls return byte-identical
serialized paths. -/
theorem C4_state_path_deterministic (l1 l2 : LedgerState) (c1 c2 : Nat)
    (hl : l1 = l2) (hc : c1 = c2) :
    (l1.to_state_path c1).map statePathBytes = (l2.to_state_path c2).map statePathBytes := by
  subst hl
  subst hc
  rfl

theorem C4_state_path_deterministic_witness :
    ledgerW = ledgerW ∧ (1 : Nat) = 1 ∧
    (ledgerW.to_state_path 1).map statePathBytes
      = (ledgerW.to_state_path 1).map statePathBytes ∧
    (ledgerW.to_state_path 1).isOk = true :=
  ⟨rfl, rfl, C4_state_path_deterministic ledgerW ledgerW 1 1 rfl rfl, by decide⟩

end SnarkVM
